import Mathlib

/-!
# temporal-go-querybuilder: the `QueryBuilder` of `query.go`

`QueryBuilder` is a Go `map[string]string`.  Every clause-adding method renders one
fragment into a `strings.Builder` and stores it with `t[key] = buf.String()`; `Encode`
ranges over the map and joins the values with the empty separator.

Embedding.

* A Go `string` is a Lean `String`; the `byte` written with `WriteByte` is one element
  of that sequence, a `Char`.  The methods only concatenate, so nothing depends on the
  alphabet.
* The contents of an allocated map (as made by `QueryBuilder{}`) are a list of
  key/fragment pairs with pairwise distinct keys (`QueryBuilder.WF`).  The position
  of an entry in the list carries no meaning.
* Go leaves the iteration order of `range` over a map unspecified.  `Encode` therefore
  takes the order in which the loop visits the keys as an argument `order`; the orders
  the loop can take are the permutations of the keys (`QueryBuilder.IterOrder`).
* `time.Time` and `Time.Format(time.RFC3339)` belong to the Go library: the type is a
  parameter `Time` and the rendering a parameter `rfc3339 : Time → String`.
* The nil map, on which an assignment panics, is added on top of the contents by
  `Value`; the methods on `Value` return the panic or the new value.
-/

namespace TemporalQueryBuilder

/-! ## Constants of `query.go` -/

def DelimOpenParentheses : Char := '('
def DelimCloseParentheses : Char := ')'
def LogicalOpAND : String := "AND"
def LogicalOpOR : String := "OR"
def LogicalOpBetween : String := "BETWEEN"
def LogicalOpIn : String := "IN"
def LogicalOpStartsWith : String := "STARTS_WITH"
def SearchAttrExecutionStatus : String := "ExecutionStatus"
def SearchAttrStartTime : String := "StartTime"
def SearchAttrWorkflowType : String := "WorkflowType"
def ExecStatusRunning : String := "Running"

/-! ## Go library functions used by `query.go` -/

/-- Go `strings.Join(elems, sep)`: the empty string for no element, the element itself
for one, otherwise the first element followed by `sep` and the next element, for each
further element. -/
def stringsJoin : List String → String → String
  | [], _ => ""
  | [e], _ => e
  | e :: rest, sep => rest.foldl (fun b s => b ++ sep ++ s) e

/-- Go `fmt.Sprintf(" %s ", s)`. -/
def sprintfSpaced (s : String) : String := " " ++ s ++ " "

/-- Go `fmt.Sprintf("'%s'", s)`. -/
def sprintfQuoted (s : String) : String := "'" ++ s ++ "'"

/-- Go `fmt.Sprintf("%s ", s)`. -/
def sprintfTrailing (s : String) : String := s ++ " "

/-! ## The map -/

/-- Contents of an allocated `QueryBuilder` (`map[string]string`): key/fragment pairs. -/
abbrev QueryBuilder := List (String × String)

namespace QueryBuilder

/-- The literal `QueryBuilder{}`. -/
def empty : QueryBuilder := []

/-- Go `len(t)`. -/
def len (t : QueryBuilder) : Nat := t.length

/-- Keys present in the map. -/
def keys (t : QueryBuilder) : List String := t.map Prod.fst

/-- Well-formed contents: no key occurs twice. -/
def WF (t : QueryBuilder) : Prop := t.keys.Nodup

instance (t : QueryBuilder) : Decidable t.WF := by
  unfold WF; infer_instance

/-- Lookup of a key: `none` when the key is absent. -/
def get? : QueryBuilder → String → Option String
  | [], _ => none
  | (k', v) :: rest, k => if k' = k then some v else get? rest k

/-- Go `t[k]` as an expression: the zero value `""` when the key is absent. -/
def index (t : QueryBuilder) (k : String) : String := (t.get? k).getD ""

/-- Go `t[k] = v`: replaces the fragment of an existing key, adds the entry otherwise. -/
def assign : QueryBuilder → String → String → QueryBuilder
  | [], k, v => [(k, v)]
  | (k', v') :: rest, k, v =>
    if k' = k then (k', v) :: rest else (k', v') :: assign rest k v

/-- An order in which `for k := range t` can visit the keys: any permutation of them. -/
def IterOrder (t : QueryBuilder) (order : List String) : Prop := order.Perm t.keys

instance (t : QueryBuilder) (order : List String) : Decidable (t.IterOrder order) := by
  unfold IterOrder; infer_instance

end QueryBuilder

open QueryBuilder

/-! ## The methods of `QueryBuilder` -/

/-- `Query` builds one comparison entry and stores it under `searchAttr`. -/
def Query (t : QueryBuilder) (searchAttr : String) (comparisonOp : Char) (value : String)
    (logicalOp : String) : QueryBuilder :=
  let buf := ""
  let buf := if t.len > 0 then buf ++ sprintfSpaced logicalOp else buf
  let buf := buf ++ searchAttr
  let buf := buf.push comparisonOp
  let buf := buf ++ sprintfQuoted value
  t.assign searchAttr buf

/-- `StartQuery` calls `Query` with the zero-value (empty) logical operator. -/
def StartQuery (t : QueryBuilder) (searchAttr : String) (comparisonOp : Char)
    (value : String) : QueryBuilder :=
  let logicalOp := ""
  Query t searchAttr comparisonOp value logicalOp

/-- `Or` calls `Query` with `LogicalOpOR`. -/
def Or (t : QueryBuilder) (searchAttr : String) (comparisonOp : Char) (value : String) :
    QueryBuilder :=
  Query t searchAttr comparisonOp value LogicalOpOR

/-- `And` calls `Query` with `LogicalOpAND`. -/
def And (t : QueryBuilder) (searchAttr : String) (comparisonOp : Char) (value : String) :
    QueryBuilder :=
  Query t searchAttr comparisonOp value LogicalOpAND

/-- `Between` builds a parenthesised `BETWEEN ... AND ...` entry under `searchAttr`. -/
def Between {Time : Type} (rfc3339 : Time → String) (t : QueryBuilder)
    (searchAttr : String) (start finish : Time) (logicalOp : String) : QueryBuilder :=
  let buf := ""
  let buf := if t.len > 0 then buf ++ sprintfSpaced logicalOp else buf
  let buf := buf.push DelimOpenParentheses
  let buf := buf ++ searchAttr
  let buf := buf ++ sprintfSpaced LogicalOpBetween
  let buf := buf ++ sprintfQuoted (rfc3339 start)
  let buf := buf ++ sprintfSpaced LogicalOpAND
  let buf := buf ++ sprintfQuoted (rfc3339 finish)
  let buf := buf.push DelimCloseParentheses
  t.assign searchAttr buf

/-- `In` builds a `searchAttr IN ('v1', 'v2')` entry under `searchAttr`. -/
def In (t : QueryBuilder) (searchAttr : String) (values : List String)
    (logicalOp : String) : QueryBuilder :=
  let buf := ""
  let buf := if t.len > 0 then buf ++ sprintfSpaced logicalOp else buf
  let vs := values.foldl (fun vs v => vs ++ [sprintfQuoted v]) []
  let buf := buf ++ searchAttr
  let buf := buf ++ sprintfSpaced LogicalOpIn
  let buf := buf.push DelimOpenParentheses
  let buf := buf ++ stringsJoin vs ", "
  let buf := buf.push DelimCloseParentheses
  t.assign searchAttr buf

/-- `StartsWith` builds a `STARTS_WITH 'value'` entry and stores it under `value`. -/
def StartsWith (t : QueryBuilder) (value : String) (logicalOp : String) : QueryBuilder :=
  let buf := ""
  let buf := if t.len > 0 then buf ++ sprintfSpaced logicalOp else buf
  let buf := buf ++ sprintfTrailing LogicalOpStartsWith
  let buf := buf ++ sprintfQuoted value
  t.assign value buf

/-- `Encode`: the loop `for k := range t` appends `t[k]` for each key in the order the
iteration visits them (`order`), and the values are joined with the empty separator. -/
def Encode (t : QueryBuilder) (order : List String) : String :=
  let values := order.foldl (fun values k => values ++ [t.index k]) []
  stringsJoin values ""

/-! ## Calls of the clause-adding methods -/

/-- One call of a clause-adding method, with its arguments. -/
inductive Call (Time : Type) where
  | StartQuery (searchAttr : String) (comparisonOp : Char) (value : String)
  | Or (searchAttr : String) (comparisonOp : Char) (value : String)
  | And (searchAttr : String) (comparisonOp : Char) (value : String)
  | Query (searchAttr : String) (comparisonOp : Char) (value : String) (logicalOp : String)
  | Between (searchAttr : String) (start finish : Time) (logicalOp : String)
  | In (searchAttr : String) (values : List String) (logicalOp : String)
  | StartsWith (value : String) (logicalOp : String)

/-- The map key a call assigns to: `searchAttr`, and `value` for `StartsWith`. -/
def Call.key {Time : Type} : Call Time → String
  | .StartQuery searchAttr _ _ => searchAttr
  | .Or searchAttr _ _ => searchAttr
  | .And searchAttr _ _ => searchAttr
  | .Query searchAttr _ _ _ => searchAttr
  | .Between searchAttr _ _ _ => searchAttr
  | .In searchAttr _ _ => searchAttr
  | .StartsWith value _ => value

/-- The builder after the call is made on `t`. -/
def Call.run {Time : Type} (rfc3339 : Time → String) (t : QueryBuilder) :
    Call Time → QueryBuilder
  | .StartQuery searchAttr comparisonOp value =>
    TemporalQueryBuilder.StartQuery t searchAttr comparisonOp value
  | .Or searchAttr comparisonOp value => TemporalQueryBuilder.Or t searchAttr comparisonOp value
  | .And searchAttr comparisonOp value => TemporalQueryBuilder.And t searchAttr comparisonOp value
  | .Query searchAttr comparisonOp value logicalOp =>
    TemporalQueryBuilder.Query t searchAttr comparisonOp value logicalOp
  | .Between searchAttr start finish logicalOp =>
    TemporalQueryBuilder.Between rfc3339 t searchAttr start finish logicalOp
  | .In searchAttr values logicalOp => TemporalQueryBuilder.In t searchAttr values logicalOp
  | .StartsWith value logicalOp => TemporalQueryBuilder.StartsWith t value logicalOp

/-- The logical operator a call renders in front of its clause on a non-empty builder:
the empty string for `StartQuery`, `OR` for `Or`, `AND` for `And`, and the `logicalOp`
argument for the other methods. -/
def Call.logicalOp {Time : Type} : Call Time → String
  | .StartQuery _ _ _ => ""
  | .Or _ _ _ => LogicalOpOR
  | .And _ _ _ => LogicalOpAND
  | .Query _ _ _ logicalOp => logicalOp
  | .Between _ _ _ logicalOp => logicalOp
  | .In _ _ logicalOp => logicalOp
  | .StartsWith _ logicalOp => logicalOp

/-- The builder after a sequence of calls, made one after the other starting from `t`. -/
def runCalls {Time : Type} (rfc3339 : Time → String) (t : QueryBuilder) :
    List (Call Time) → QueryBuilder
  | [] => t
  | k :: rest => runCalls rfc3339 (k.run rfc3339 t) rest

/-- Whether a fragment begins with the space character. -/
def beginsWithSpace (s : String) : Bool :=
  match s.data with
  | [] => false
  | ch :: _ => ch == ' '

/-! ## Values of type `QueryBuilder`, the nil map included -/

/-- A run-time panic of the Go program. -/
inductive GoPanic where
  | assignmentToEntryInNilMap

/-- A value of the Go type `QueryBuilder`: the zero value `nil` (`var q QueryBuilder`),
or an allocated map with its contents. -/
inductive Value where
  | nil
  | alloc (contents : QueryBuilder)

/-- Go `len(t)`: `0` for the nil map. -/
def Value.len : Value → Nat
  | .nil => 0
  | .alloc m => m.len

/-- Keys a `range` loop visits: none for the nil map. -/
def Value.keys : Value → List String
  | .nil => []
  | .alloc m => m.keys

/-- Go `t[k]` as an expression: reading the nil map gives the zero value `""`. -/
def Value.index : Value → String → String
  | .nil, _ => ""
  | .alloc m, k => m.index k

/-- Go `t[k] = v`: panics with `assignment to entry in nil map` on the nil map. -/
def Value.assign : Value → String → String → Except GoPanic Value
  | .nil, _, _ => .error .assignmentToEntryInNilMap
  | .alloc m, k, v => .ok (.alloc (m.assign k v))

/-- An order in which `for k := range t` can visit the keys of the value. -/
def Value.IterOrder (t : Value) (order : List String) : Prop := order.Perm t.keys

/-- `Query` on a value of type `QueryBuilder`. -/
def Value.Query (t : Value) (searchAttr : String) (comparisonOp : Char) (value : String)
    (logicalOp : String) : Except GoPanic Value :=
  let buf := ""
  let buf := if t.len > 0 then buf ++ sprintfSpaced logicalOp else buf
  let buf := buf ++ searchAttr
  let buf := buf.push comparisonOp
  let buf := buf ++ sprintfQuoted value
  t.assign searchAttr buf

/-- `StartQuery` on a value of type `QueryBuilder`. -/
def Value.StartQuery (t : Value) (searchAttr : String) (comparisonOp : Char)
    (value : String) : Except GoPanic Value :=
  let logicalOp := ""
  t.Query searchAttr comparisonOp value logicalOp

/-- `Or` on a value of type `QueryBuilder`. -/
def Value.Or (t : Value) (searchAttr : String) (comparisonOp : Char) (value : String) :
    Except GoPanic Value :=
  t.Query searchAttr comparisonOp value LogicalOpOR

/-- `And` on a value of type `QueryBuilder`. -/
def Value.And (t : Value) (searchAttr : String) (comparisonOp : Char) (value : String) :
    Except GoPanic Value :=
  t.Query searchAttr comparisonOp value LogicalOpAND

/-- `Between` on a value of type `QueryBuilder`. -/
def Value.Between {Time : Type} (rfc3339 : Time → String) (t : Value)
    (searchAttr : String) (start finish : Time) (logicalOp : String) :
    Except GoPanic Value :=
  let buf := ""
  let buf := if t.len > 0 then buf ++ sprintfSpaced logicalOp else buf
  let buf := buf.push DelimOpenParentheses
  let buf := buf ++ searchAttr
  let buf := buf ++ sprintfSpaced LogicalOpBetween
  let buf := buf ++ sprintfQuoted (rfc3339 start)
  let buf := buf ++ sprintfSpaced LogicalOpAND
  let buf := buf ++ sprintfQuoted (rfc3339 finish)
  let buf := buf.push DelimCloseParentheses
  t.assign searchAttr buf

/-- `In` on a value of type `QueryBuilder`. -/
def Value.In (t : Value) (searchAttr : String) (values : List String)
    (logicalOp : String) : Except GoPanic Value :=
  let buf := ""
  let buf := if t.len > 0 then buf ++ sprintfSpaced logicalOp else buf
  let vs := values.foldl (fun vs v => vs ++ [sprintfQuoted v]) []
  let buf := buf ++ searchAttr
  let buf := buf ++ sprintfSpaced LogicalOpIn
  let buf := buf.push DelimOpenParentheses
  let buf := buf ++ stringsJoin vs ", "
  let buf := buf.push DelimCloseParentheses
  t.assign searchAttr buf

/-- `StartsWith` on a value of type `QueryBuilder`. -/
def Value.StartsWith (t : Value) (value : String) (logicalOp : String) :
    Except GoPanic Value :=
  let buf := ""
  let buf := if t.len > 0 then buf ++ sprintfSpaced logicalOp else buf
  let buf := buf ++ sprintfTrailing LogicalOpStartsWith
  let buf := buf ++ sprintfQuoted value
  t.assign value buf

/-- `Encode` on a value of type `QueryBuilder`; it only reads the map. -/
def Value.Encode (t : Value) (order : List String) : String :=
  let values := order.foldl (fun values k => values ++ [t.index k]) []
  stringsJoin values ""

/-- The outcome of a call made on a value of type `QueryBuilder`. -/
def Call.runValue {Time : Type} (rfc3339 : Time → String) (t : Value) :
    Call Time → Except GoPanic Value
  | .StartQuery searchAttr comparisonOp value => t.StartQuery searchAttr comparisonOp value
  | .Or searchAttr comparisonOp value => t.Or searchAttr comparisonOp value
  | .And searchAttr comparisonOp value => t.And searchAttr comparisonOp value
  | .Query searchAttr comparisonOp value logicalOp =>
    t.Query searchAttr comparisonOp value logicalOp
  | .Between searchAttr start finish logicalOp =>
    t.Between rfc3339 searchAttr start finish logicalOp
  | .In searchAttr values logicalOp => t.In searchAttr values logicalOp
  | .StartsWith value logicalOp => t.StartsWith value logicalOp

/-! ## Renderings as the specification words them -/

/-- The value list of an `IN` clause as the specification describes it: the values in
input order, each wrapped in single quotes, joined by a comma and one space, with no
trailing separator. -/
def quotedCommaList : List String → String
  | [] => ""
  | [v] => "'" ++ v ++ "'"
  | v :: w :: rest => "'" ++ v ++ "'" ++ ", " ++ quotedCommaList (w :: rest)

end TemporalQueryBuilder

namespace TemporalQueryBuilder

open QueryBuilder

/-! ## Facts about the library functions -/

theorem push_eq_append (s : String) (c : Char) : s.push c = s ++ String.singleton c := by
  apply String.ext
  simp [String.singleton]

theorem foldl_append_acc (ys : List String) (p q : String) :
    ys.foldl (fun r s => r ++ s) (p ++ q) = p ++ ys.foldl (fun r s => r ++ s) q := by
  induction ys generalizing q with
  | nil => rfl
  | cons y ys ih =>
    simp only [List.foldl_cons]
    rw [String.append_assoc, ih]

theorem foldl_append_eq (l : List String) (b : String) :
    l.foldl (fun b s => b ++ "" ++ s) b = b ++ String.join l := by
  have h : (fun (b s : String) => b ++ "" ++ s) = (fun r s => r ++ s) := by
    funext b s
    simp
  rw [h]
  have h2 := foldl_append_acc l b ""
  simpa [String.join] using h2

theorem stringsJoin_empty_sep (l : List String) : stringsJoin l "" = String.join l := by
  match l with
  | [] => rfl
  | [e] => simp [stringsJoin, String.join]
  | e :: e' :: rest =>
    simp only [stringsJoin]
    rw [foldl_append_eq]
    have h := foldl_append_acc (e' :: rest) e ""
    simp only [String.join, List.foldl_cons, String.empty_append, String.append_empty] at h ⊢
    exact h.symm

theorem join_append_singleton (l : List String) (x : String) :
    String.join (l ++ [x]) = String.join l ++ x := by
  simp [String.join, List.foldl_append]

theorem collect_eq_map (f : String → String) (order : List String) (init : List String) :
    order.foldl (fun values k => values ++ [f k]) init = init ++ order.map f := by
  induction order generalizing init with
  | nil => simp
  | cons k ks ih => simp [ih]

/-! ## Facts about the map -/

theorem get?_assign (t : QueryBuilder) (k v k' : String) :
    (t.assign k v).get? k' = if k = k' then some v else t.get? k' := by
  induction t with
  | nil => simp [assign, get?]
  | cons e rest ih =>
    obtain ⟨k0, v0⟩ := e
    by_cases h0 : k0 = k
    · subst h0
      by_cases h1 : k0 = k' <;> simp [assign, get?, h1]
    · by_cases h1 : k0 = k'
      · subst h1
        simp [assign, get?, h0, Ne.symm h0]
      · simp [assign, get?, h0, h1, ih]

theorem index_assign_same (t : QueryBuilder) (k v : String) : (t.assign k v).index k = v := by
  simp [index, get?_assign]

theorem index_assign_other (t : QueryBuilder) (k v k' : String) (h : k ≠ k') :
    (t.assign k v).index k' = t.index k' := by
  simp [index, get?_assign, h]

theorem keys_assign_new (t : QueryBuilder) (k v : String) (h : k ∉ t.keys) :
    (t.assign k v).keys = t.keys ++ [k] := by
  induction t with
  | nil => rfl
  | cons e rest ih =>
    obtain ⟨k0, v0⟩ := e
    have h0 : k0 ≠ k := by
      intro hk
      exact h (by simp [keys, hk])
    have hr : k ∉ keys rest := by
      intro hk
      exact h (by simp only [keys, List.map_cons, List.mem_cons]; exact Or.inr hk)
    have ih' := ih hr
    simp only [keys] at ih' ⊢
    simp [assign, h0, ih']

theorem keys_assign_old (t : QueryBuilder) (k v : String) (h : k ∈ t.keys) :
    (t.assign k v).keys = t.keys := by
  induction t with
  | nil => simp [keys] at h
  | cons e rest ih =>
    obtain ⟨k0, v0⟩ := e
    by_cases h0 : k0 = k
    · simp [assign, keys, h0]
    · have hr : k ∈ keys rest := by
        simp only [keys, List.map_cons, List.mem_cons] at h
        rcases h with h | h
        · exact absurd h.symm h0
        · exact h
      have ih' := ih hr
      simp only [keys] at ih' ⊢
      simp [assign, h0, ih']

theorem len_eq_keys_length (t : QueryBuilder) : t.len = t.keys.length := by
  simp [len, keys]

theorem assign_empty (k v : String) : QueryBuilder.empty.assign k v = [(k, v)] := rfl

theorem assign_single_same (k v v' : String) :
    QueryBuilder.assign [(k, v)] k v' = [(k, v')] := by
  simp [assign]

/-! ## Facts about `Encode` -/

theorem Encode_eq_join (t : QueryBuilder) (order : List String) :
    Encode t order = String.join (order.map t.index) := by
  simp [Encode, collect_eq_map, stringsJoin_empty_sep]

theorem Encode_single (k v : String) (order : List String)
    (h : IterOrder [(k, v)] order) : Encode [(k, v)] order = v := by
  have ho : order = [k] := by
    have h' : order.Perm [k] := h
    exact List.perm_singleton.mp h'
  subst ho
  simp [Encode_eq_join, String.join, index, get?]

theorem Encode_snoc (t : QueryBuilder) (order : List String) (k : String) :
    Encode t (order ++ [k]) = Encode t order ++ t.index k := by
  simp [Encode_eq_join, join_append_singleton]

end TemporalQueryBuilder

namespace TemporalQueryBuilder

open QueryBuilder

/-! ## The fragment a call stores -/

theorem Query_empty (a : String) (c : Char) (v op : String) :
    Query QueryBuilder.empty a c v op = [(a, a ++ String.singleton c ++ "'" ++ v ++ "'")] := by
  simp [Query, len, QueryBuilder.empty, assign, sprintfQuoted, push_eq_append,
    String.append_assoc]

theorem Query_nonempty (t : QueryBuilder) (a : String) (c : Char) (v op : String)
    (h : 0 < t.len) :
    Query t a c v op
      = t.assign a (" " ++ op ++ " " ++ a ++ String.singleton c ++ "'" ++ v ++ "'") := by
  simp [Query, h, sprintfSpaced, sprintfQuoted, push_eq_append, String.append_assoc]

/-! ## C1 -/

/-- C1: on a freshly created (empty) builder, `StartQuery(a,c,v)` followed by `Encode()`,
and likewise `Query(a,c,v,op)` followed by `Encode()`, returns exactly
`a ++ [c] ++ "'" ++ v ++ "'"`, whatever `op` was passed and whichever order the map
iteration takes. -/
theorem C1_first_clause_encoding (a : String) (c : Char) (v op : String) :
    (∀ order, IterOrder (StartQuery QueryBuilder.empty a c v) order →
        Encode (StartQuery QueryBuilder.empty a c v) order
          = a ++ String.singleton c ++ "'" ++ v ++ "'") ∧
    (∀ order, IterOrder (Query QueryBuilder.empty a c v op) order →
        Encode (Query QueryBuilder.empty a c v op) order
          = a ++ String.singleton c ++ "'" ++ v ++ "'") := by
  constructor
  · intro order h
    unfold StartQuery at h ⊢
    rw [Query_empty] at h ⊢
    exact Encode_single _ _ _ h
  · intro order h
    rw [Query_empty] at h ⊢
    exact Encode_single _ _ _ h

/-- C1 at `a = "WorkflowType"`, `c = '='`, `v = "TestMe"`, `op = "AND"`. -/
theorem C1_first_clause_encoding_witness :
    Encode (StartQuery QueryBuilder.empty "WorkflowType" '=' "TestMe") ["WorkflowType"]
        = "WorkflowType='TestMe'" ∧
    Encode (Query QueryBuilder.empty "WorkflowType" '=' "TestMe" "AND") ["WorkflowType"]
        = "WorkflowType='TestMe'" :=
  ⟨(C1_first_clause_encoding "WorkflowType" '=' "TestMe" "AND").1 ["WorkflowType"] (by decide),
   (C1_first_clause_encoding "WorkflowType" '=' "TestMe" "AND").2 ["WorkflowType"] (by decide)⟩

/-! ## C2 -/

/-- C2: after `StartQuery("WorkflowType",'=',"TestMe")` and
`And("ExecutionStatus",'=',"Running")` on an empty builder, the map holds the two keys;
visiting them in call order `Encode()` returns
`WorkflowType='TestMe' AND ExecutionStatus='Running'`, but the order that visits
`ExecutionStatus` first is an iteration order of the same map as well, and there
`Encode()` returns ` AND ExecutionStatus='Running'WorkflowType='TestMe'`. -/
theorem C2_encode_depends_on_iteration_order :
    IterOrder
        (And (StartQuery QueryBuilder.empty "WorkflowType" '=' "TestMe")
          "ExecutionStatus" '=' "Running")
        ["WorkflowType", "ExecutionStatus"] ∧
    Encode
        (And (StartQuery QueryBuilder.empty "WorkflowType" '=' "TestMe")
          "ExecutionStatus" '=' "Running")
        ["WorkflowType", "ExecutionStatus"]
      = "WorkflowType='TestMe' AND ExecutionStatus='Running'" ∧
    IterOrder
        (And (StartQuery QueryBuilder.empty "WorkflowType" '=' "TestMe")
          "ExecutionStatus" '=' "Running")
        ["ExecutionStatus", "WorkflowType"] ∧
    Encode
        (And (StartQuery QueryBuilder.empty "WorkflowType" '=' "TestMe")
          "ExecutionStatus" '=' "Running")
        ["ExecutionStatus", "WorkflowType"]
      = " AND ExecutionStatus='Running'WorkflowType='TestMe'" := by
  refine ⟨by decide, by decide, by decide, by decide⟩

/-! ## C4 -/

/-- C4: after `Query("WorkflowType",'=',"TestMe","AND")` and
`And("ExecutionStatus",'=',"Running")` on an empty builder, neither iteration order
of the two keys makes `Encode()` return
`WorkflowType = 'TestMe' AND ExecutionStatus = 'Running'`: in call order it returns
`WorkflowType='TestMe' AND ExecutionStatus='Running'`, with no space around `=`; and
likewise with `Or`. -/
theorem C4_no_space_around_comparison :
    Encode
        (And (Query QueryBuilder.empty SearchAttrWorkflowType '=' "TestMe" LogicalOpAND)
          SearchAttrExecutionStatus '=' "Running")
        ["WorkflowType", "ExecutionStatus"]
      = "WorkflowType='TestMe' AND ExecutionStatus='Running'" ∧
    Encode
        (And (Query QueryBuilder.empty SearchAttrWorkflowType '=' "TestMe" LogicalOpAND)
          SearchAttrExecutionStatus '=' "Running")
        ["WorkflowType", "ExecutionStatus"]
      ≠ "WorkflowType = 'TestMe' AND ExecutionStatus = 'Running'" ∧
    Encode
        (And (Query QueryBuilder.empty SearchAttrWorkflowType '=' "TestMe" LogicalOpAND)
          SearchAttrExecutionStatus '=' "Running")
        ["ExecutionStatus", "WorkflowType"]
      ≠ "WorkflowType = 'TestMe' AND ExecutionStatus = 'Running'" ∧
    Encode
        (Or (Query QueryBuilder.empty SearchAttrWorkflowType '=' "TestMe" LogicalOpAND)
          SearchAttrExecutionStatus '=' "Running")
        ["WorkflowType", "ExecutionStatus"]
      = "WorkflowType='TestMe' OR ExecutionStatus='Running'" ∧
    Encode
        (Or (Query QueryBuilder.empty SearchAttrWorkflowType '=' "TestMe" LogicalOpAND)
          SearchAttrExecutionStatus '=' "Running")
        ["WorkflowType", "ExecutionStatus"]
      ≠ "WorkflowType = 'TestMe' OR ExecutionStatus = 'Running'" ∧
    Encode
        (Or (Query QueryBuilder.empty SearchAttrWorkflowType '=' "TestMe" LogicalOpAND)
          SearchAttrExecutionStatus '=' "Running")
        ["ExecutionStatus", "WorkflowType"]
      ≠ "WorkflowType = 'TestMe' OR ExecutionStatus = 'Running'" := by
  refine ⟨by decide, by decide, by decide, by decide, by decide, by decide⟩

/-! ## C5 -/

/-- C5: after `Query(a,c,v,op)` the entry stored under key `a` is
`a ++ [c] ++ "'" ++ v ++ "'"` when the builder held zero entries before the call, and
`" " ++ op ++ " " ++ a ++ [c] ++ "'" ++ v ++ "'"` when it held at least one entry. -/
theorem C5_query_stored_fragment (t : QueryBuilder) (a : String) (c : Char) (v op : String) :
    (t.len = 0 →
        (Query t a c v op).get? a = some (a ++ String.singleton c ++ "'" ++ v ++ "'")) ∧
    (0 < t.len →
        (Query t a c v op).get? a
          = some (" " ++ op ++ " " ++ a ++ String.singleton c ++ "'" ++ v ++ "'")) := by
  constructor
  · intro h
    have ht : t = QueryBuilder.empty := by
      cases t with
      | nil => rfl
      | cons e rest => simp [len] at h
    subst ht
    rw [Query_empty]
    simp [get?]
  · intro h
    rw [Query_nonempty t a c v op h, get?_assign]
    simp

/-- C5 on the empty builder and on a builder whose only entry is the one under the
key being written. -/
theorem C5_query_stored_fragment_witness :
    (Query QueryBuilder.empty "RunId" '=' "r1" "OR").get? "RunId" = some "RunId='r1'" ∧
    (Query [("RunId", "RunId='r0'")] "RunId" '=' "r1" "OR").get? "RunId"
      = some " OR RunId='r1'" :=
  ⟨(C5_query_stored_fragment QueryBuilder.empty "RunId" '=' "r1" "OR").1 (by decide),
   (C5_query_stored_fragment [("RunId", "RunId='r0'")] "RunId" '=' "r1" "OR").2 (by decide)⟩

end TemporalQueryBuilder

namespace TemporalQueryBuilder

open QueryBuilder

/-! ## More on the fragments the calls store -/

theorem And_nonempty (t : QueryBuilder) (a : String) (c : Char) (v : String)
    (h : 0 < t.len) :
    And t a c v = t.assign a (" AND " ++ a ++ String.singleton c ++ "'" ++ v ++ "'") := by
  unfold And
  rw [Query_nonempty t a c v _ h]
  rfl

theorem Or_nonempty (t : QueryBuilder) (a : String) (c : Char) (v : String)
    (h : 0 < t.len) :
    Or t a c v = t.assign a (" OR " ++ a ++ String.singleton c ++ "'" ++ v ++ "'") := by
  unfold Or
  rw [Query_nonempty t a c v _ h]
  rfl

theorem Between_empty {Time : Type} (rfc3339 : Time → String) (a : String) (t1 t2 : Time)
    (op : String) :
    Between rfc3339 QueryBuilder.empty a t1 t2 op
      = [(a, "(" ++ a ++ " BETWEEN '" ++ rfc3339 t1 ++ "' AND '" ++ rfc3339 t2 ++ "')")] := by
  simp only [Between, len, QueryBuilder.empty, List.length_nil, gt_iff_lt, lt_self_iff_false,
    if_false, assign]
  congr 2
  apply String.ext
  simp [sprintfSpaced, sprintfQuoted, LogicalOpBetween, LogicalOpAND, DelimOpenParentheses,
    DelimCloseParentheses]

theorem Between_nonempty {Time : Type} (rfc3339 : Time → String) (t : QueryBuilder)
    (a : String) (t1 t2 : Time) (op : String) (h : 0 < t.len) :
    Between rfc3339 t a t1 t2 op
      = t.assign a (" " ++ op ++ " " ++ "(" ++ a ++ " BETWEEN '" ++ rfc3339 t1 ++ "' AND '"
          ++ rfc3339 t2 ++ "')") := by
  simp only [Between, gt_iff_lt, h, if_true]
  congr 1
  apply String.ext
  simp [sprintfSpaced, sprintfQuoted, LogicalOpBetween, LogicalOpAND, DelimOpenParentheses,
    DelimCloseParentheses]

theorem foldl_sep_acc (sep : String) (l : List String) (p q : String) :
    l.foldl (fun b s => b ++ sep ++ s) (p ++ q) = p ++ l.foldl (fun b s => b ++ sep ++ s) q := by
  induction l generalizing q with
  | nil => rfl
  | cons y ys ih =>
    simp only [List.foldl_cons]
    rw [String.append_assoc, String.append_assoc, ih, String.append_assoc]

theorem foldl_quoted_eq (v : String) (rest : List String) :
    (rest.map sprintfQuoted).foldl (fun b s => b ++ ", " ++ s) (sprintfQuoted v)
      = quotedCommaList (v :: rest) := by
  induction rest generalizing v with
  | nil => simp [quotedCommaList, sprintfQuoted]
  | cons w rest ih =>
    simp only [List.map_cons, List.foldl_cons]
    rw [foldl_sep_acc, ih w]
    simp [quotedCommaList, sprintfQuoted]

theorem stringsJoin_quoted (values : List String) :
    stringsJoin (values.foldl (fun vs v => vs ++ [sprintfQuoted v]) []) ", "
      = quotedCommaList values := by
  rw [collect_eq_map]
  match values with
  | [] => rfl
  | [v] => simp [stringsJoin, quotedCommaList, sprintfQuoted]
  | v :: w :: rest =>
    simp only [List.nil_append, List.map_cons, stringsJoin]
    exact foldl_quoted_eq v (w :: rest)

theorem In_empty (a : String) (values : List String) (op : String) :
    In QueryBuilder.empty a values op
      = [(a, a ++ " IN (" ++ quotedCommaList values ++ ")")] := by
  simp only [In, len, QueryBuilder.empty, List.length_nil, gt_iff_lt, lt_self_iff_false,
    if_false, assign, stringsJoin_quoted]
  congr 2
  apply String.ext
  simp [sprintfSpaced, LogicalOpIn, DelimOpenParentheses, DelimCloseParentheses]

theorem In_nonempty (t : QueryBuilder) (a : String) (values : List String) (op : String)
    (h : 0 < t.len) :
    In t a values op
      = t.assign a (" " ++ op ++ " " ++ a ++ " IN (" ++ quotedCommaList values ++ ")") := by
  simp only [In, gt_iff_lt, h, if_true, stringsJoin_quoted]
  congr 1
  apply String.ext
  simp [sprintfSpaced, LogicalOpIn, DelimOpenParentheses, DelimCloseParentheses]

theorem StartsWith_empty (v op : String) :
    StartsWith QueryBuilder.empty v op = [(v, "STARTS_WITH '" ++ v ++ "'")] := by
  simp only [StartsWith, len, QueryBuilder.empty, List.length_nil, gt_iff_lt,
    lt_self_iff_false, if_false, assign]
  rfl

theorem StartsWith_nonempty (t : QueryBuilder) (v op : String) (h : 0 < t.len) :
    StartsWith t v op = t.assign v (" " ++ op ++ " STARTS_WITH '" ++ v ++ "'") := by
  simp only [StartsWith, gt_iff_lt, h, if_true]
  congr 1
  apply String.ext
  simp [sprintfSpaced, sprintfTrailing, sprintfQuoted, LogicalOpStartsWith]

theorem Encode_assign_of_not_mem (t : QueryBuilder) (k v : String) (order : List String)
    (h : k ∉ order) : Encode (t.assign k v) order = Encode t order := by
  rw [Encode_eq_join, Encode_eq_join]
  congr 1
  apply List.map_congr_left
  intro k' hk'
  apply index_assign_other
  intro hkk
  exact h (hkk ▸ hk')

end TemporalQueryBuilder

namespace TemporalQueryBuilder

open QueryBuilder

/-! ## C3 -/

/-- C3, refuted as stated: on the non-empty builder left by `StartQuery("a",'=',"1")`,
whose `Encode()` is `a='1'`, the call `And("a",'=',"2")` writes the key that is already
there; the map still has the single key `a`, and `Encode()` returns ` AND a='2'`, not
`a='1' AND a='2'`. -/
theorem C3_counterexample_existing_key :
    0 < (StartQuery QueryBuilder.empty "a" '=' "1").len ∧
    (StartQuery QueryBuilder.empty "a" '=' "1").keys = ["a"] ∧
    Encode (StartQuery QueryBuilder.empty "a" '=' "1") ["a"] = "a='1'" ∧
    (And (StartQuery QueryBuilder.empty "a" '=' "1") "a" '=' "2").keys = ["a"] ∧
    Encode (And (StartQuery QueryBuilder.empty "a" '=' "1") "a" '=' "2") ["a"]
      = " AND a='2'" ∧
    Encode (And (StartQuery QueryBuilder.empty "a" '=' "1") "a" '=' "2") ["a"]
      ≠ Encode (StartQuery QueryBuilder.empty "a" '=' "1") ["a"]
          ++ " AND " ++ "a" ++ String.singleton '=' ++ "'" ++ "2" ++ "'" := by
  refine ⟨by decide, by decide, by decide, by decide, by decide, by decide⟩

/-- C3, amended: for a non-empty builder `t` and an attribute `a` that is not a key of
`t`, if `Encode()` on `t` visits the keys in the order `order`, then after `And(a,c,v)`
the order `order` followed by `a` is an iteration order of the new map, and visiting the
keys so `Encode()` returns the prior encoding followed by
`" AND " ++ a ++ [c] ++ "'" ++ v ++ "'"`; likewise `Or` with `" OR "`. -/
theorem C3_append_new_attribute (t : QueryBuilder) (a : String) (c : Char) (v : String)
    (order : List String) (hne : 0 < t.len) (ha : a ∉ t.keys) (ho : IterOrder t order) :
    (IterOrder (And t a c v) (order ++ [a]) ∧
      Encode (And t a c v) (order ++ [a])
        = Encode t order ++ " AND " ++ a ++ String.singleton c ++ "'" ++ v ++ "'") ∧
    (IterOrder (Or t a c v) (order ++ [a]) ∧
      Encode (Or t a c v) (order ++ [a])
        = Encode t order ++ " OR " ++ a ++ String.singleton c ++ "'" ++ v ++ "'") := by
  have hmem : a ∉ order := fun h => ha ((List.Perm.mem_iff ho).mp h)
  refine ⟨⟨?_, ?_⟩, ⟨?_, ?_⟩⟩
  · rw [And_nonempty t a c v hne]
    unfold IterOrder at ho ⊢
    rw [keys_assign_new t a _ ha]
    exact List.Perm.append_right [a] ho
  · rw [And_nonempty t a c v hne, Encode_snoc, index_assign_same,
      Encode_assign_of_not_mem _ _ _ _ hmem]
    simp only [String.append_assoc]
  · rw [Or_nonempty t a c v hne]
    unfold IterOrder at ho ⊢
    rw [keys_assign_new t a _ ha]
    exact List.Perm.append_right [a] ho
  · rw [Or_nonempty t a c v hne, Encode_snoc, index_assign_same,
      Encode_assign_of_not_mem _ _ _ _ hmem]
    simp only [String.append_assoc]

/-- C3 amended, at the builder holding `WorkflowType='TestMe'` and the new attribute
`ExecutionStatus`. -/
theorem C3_append_new_attribute_witness :
    (IterOrder (And [("WorkflowType", "WorkflowType='TestMe'")] "ExecutionStatus" '=' "Running")
        (["WorkflowType"] ++ ["ExecutionStatus"]) ∧
      Encode (And [("WorkflowType", "WorkflowType='TestMe'")] "ExecutionStatus" '=' "Running")
          (["WorkflowType"] ++ ["ExecutionStatus"])
        = "WorkflowType='TestMe' AND ExecutionStatus='Running'") ∧
    (IterOrder (Or [("WorkflowType", "WorkflowType='TestMe'")] "ExecutionStatus" '=' "Running")
        (["WorkflowType"] ++ ["ExecutionStatus"]) ∧
      Encode (Or [("WorkflowType", "WorkflowType='TestMe'")] "ExecutionStatus" '=' "Running")
          (["WorkflowType"] ++ ["ExecutionStatus"])
        = "WorkflowType='TestMe' OR ExecutionStatus='Running'") :=
  C3_append_new_attribute [("WorkflowType", "WorkflowType='TestMe'")] "ExecutionStatus" '='
    "Running" ["WorkflowType"] (by decide) (by decide) (by decide)

/-! ## C6 -/

/-- C6: with `rfc3339` the RFC 3339 rendering of a time, `Between(a,t1,t2,op)` on an
empty builder followed by `Encode()` returns
`"(" ++ a ++ " BETWEEN '" ++ rfc3339 t1 ++ "' AND '" ++ rfc3339 t2 ++ "')"`; on a
non-empty builder the fragment stored under key `a` is `" " ++ op ++ " "` followed by
that same parenthesised string. -/
theorem C6_between_fragment {Time : Type} (rfc3339 : Time → String) (a : String)
    (t1 t2 : Time) (op : String) :
    (∀ order, IterOrder (Between rfc3339 QueryBuilder.empty a t1 t2 op) order →
        Encode (Between rfc3339 QueryBuilder.empty a t1 t2 op) order
          = "(" ++ a ++ " BETWEEN '" ++ rfc3339 t1 ++ "' AND '" ++ rfc3339 t2 ++ "')") ∧
    (∀ t : QueryBuilder, 0 < t.len →
        (Between rfc3339 t a t1 t2 op).get? a
          = some (" " ++ op ++ " " ++
              ("(" ++ a ++ " BETWEEN '" ++ rfc3339 t1 ++ "' AND '" ++ rfc3339 t2 ++ "')"))) := by
  constructor
  · intro order h
    rw [Between_empty] at h ⊢
    exact Encode_single _ _ _ h
  · intro t h
    rw [Between_nonempty rfc3339 t a t1 t2 op h, get?_assign, if_pos rfl]
    congr 1
    apply String.ext
    simp

/-- C6 at `Between("StartTime", start, start + 5 min, "AND")`, with times given in Unix
seconds and rendered as `2024-12-16T20:47:35Z` and `2024-12-16T20:52:35Z`. -/
theorem C6_between_fragment_witness :
    Encode
        (Between (fun n : Nat =>
            if n = 1734382055 then "2024-12-16T20:47:35Z" else "2024-12-16T20:52:35Z")
          QueryBuilder.empty "StartTime" 1734382055 (1734382055 + 300) "AND")
        ["StartTime"]
      = "(StartTime BETWEEN '2024-12-16T20:47:35Z' AND '2024-12-16T20:52:35Z')" ∧
    (Between (fun n : Nat =>
            if n = 1734382055 then "2024-12-16T20:47:35Z" else "2024-12-16T20:52:35Z")
          [("WorkflowType", "WorkflowType='TestMe'")] "StartTime" 1734382055
          (1734382055 + 300) "AND").get? "StartTime"
      = some " AND (StartTime BETWEEN '2024-12-16T20:47:35Z' AND '2024-12-16T20:52:35Z')" :=
  ⟨(C6_between_fragment (fun n : Nat =>
        if n = 1734382055 then "2024-12-16T20:47:35Z" else "2024-12-16T20:52:35Z")
      "StartTime" 1734382055 (1734382055 + 300) "AND").1 ["StartTime"] (by decide),
   (C6_between_fragment (fun n : Nat =>
        if n = 1734382055 then "2024-12-16T20:47:35Z" else "2024-12-16T20:52:35Z")
      "StartTime" 1734382055 (1734382055 + 300) "AND").2
      [("WorkflowType", "WorkflowType='TestMe'")] (by decide)⟩

/-! ## C7 -/

/-- C7: for every list of values, `In(a,vs,op)` on an empty builder followed by
`Encode()` returns `a ++ " IN (" ++ J ++ ")"`, where `J` is the values in input order,
each in single quotes, joined by a comma and a space; for the empty list this is
`a ++ " IN ()"`, for one value `a ++ " IN ('v')"`, for two `a ++ " IN ('v', 'w')"`. -/
theorem C7_in_fragment (a : String) (vs : List String) (op : String) :
    (∀ order, IterOrder (In QueryBuilder.empty a vs op) order →
        Encode (In QueryBuilder.empty a vs op) order
          = a ++ " IN (" ++ quotedCommaList vs ++ ")") ∧
    (∀ order, IterOrder (In QueryBuilder.empty a [] op) order →
        Encode (In QueryBuilder.empty a [] op) order = a ++ " IN ()") ∧
    (∀ v order, IterOrder (In QueryBuilder.empty a [v] op) order →
        Encode (In QueryBuilder.empty a [v] op) order = a ++ " IN ('" ++ v ++ "')") ∧
    (∀ v w order, IterOrder (In QueryBuilder.empty a [v, w] op) order →
        Encode (In QueryBuilder.empty a [v, w] op) order
          = a ++ " IN ('" ++ v ++ "', '" ++ w ++ "')") := by
  refine ⟨?_, ?_, ?_, ?_⟩
  · intro order h
    rw [In_empty] at h ⊢
    exact Encode_single _ _ _ h
  · intro order h
    rw [In_empty] at h ⊢
    rw [Encode_single _ _ _ h]
    apply String.ext
    simp [quotedCommaList]
  · intro v order h
    rw [In_empty] at h ⊢
    rw [Encode_single _ _ _ h]
    apply String.ext
    simp [quotedCommaList]
  · intro v w order h
    rw [In_empty] at h ⊢
    rw [Encode_single _ _ _ h]
    apply String.ext
    simp [quotedCommaList]

/-- C7 at `In("WorkflowType", ["TestMe","TestMeBackup"], "AND")`, at the empty list and
at a single value. -/
theorem C7_in_fragment_witness :
    Encode (In QueryBuilder.empty "WorkflowType" ["TestMe", "TestMeBackup"] "AND")
        ["WorkflowType"]
      = "WorkflowType IN ('TestMe', 'TestMeBackup')" ∧
    Encode (In QueryBuilder.empty "WorkflowType" [] "AND") ["WorkflowType"]
      = "WorkflowType IN ()" ∧
    Encode (In QueryBuilder.empty "WorkflowType" ["TestMe"] "AND") ["WorkflowType"]
      = "WorkflowType IN ('TestMe')" :=
  ⟨(C7_in_fragment "WorkflowType" ["TestMe", "TestMeBackup"] "AND").1 ["WorkflowType"]
      (by decide),
   (C7_in_fragment "WorkflowType" ["TestMe", "TestMeBackup"] "AND").2.1 ["WorkflowType"]
      (by decide),
   (C7_in_fragment "WorkflowType" ["TestMe", "TestMeBackup"] "AND").2.2.1 "TestMe"
      ["WorkflowType"] (by decide)⟩

/-! ## C8 -/

/-- C8: `StartsWith(v,op)` on an empty builder followed by `Encode()` returns
`"STARTS_WITH '" ++ v ++ "'"`, whatever `op`; on a non-empty builder the fragment it
stores (under key `v`) is `" " ++ op ++ " STARTS_WITH '" ++ v ++ "'"`. -/
theorem C8_startsWith_fragment (v op : String) :
    (∀ order, IterOrder (StartsWith QueryBuilder.empty v op) order →
        Encode (StartsWith QueryBuilder.empty v op) order = "STARTS_WITH '" ++ v ++ "'") ∧
    (∀ t : QueryBuilder, 0 < t.len →
        (StartsWith t v op).get? v = some (" " ++ op ++ " STARTS_WITH '" ++ v ++ "'")) := by
  constructor
  · intro order h
    rw [StartsWith_empty] at h ⊢
    exact Encode_single _ _ _ h
  · intro t h
    rw [StartsWith_nonempty t v op h, get?_assign]
    simp

/-- C8 at `StartsWith("foo","")` on an empty builder, and at `StartsWith("foo","OR")`
on a builder holding one clause. -/
theorem C8_startsWith_fragment_witness :
    Encode (StartsWith QueryBuilder.empty "foo" "") ["foo"] = "STARTS_WITH 'foo'" ∧
    (StartsWith [("WorkflowType", "WorkflowType='TestMe'")] "foo" "OR").get? "foo"
      = some " OR STARTS_WITH 'foo'" :=
  ⟨(C8_startsWith_fragment "foo" "").1 ["foo"] (by decide),
   (C8_startsWith_fragment "foo" "OR").2 [("WorkflowType", "WorkflowType='TestMe'")]
      (by decide)⟩

end TemporalQueryBuilder

namespace TemporalQueryBuilder

open QueryBuilder

/-! ## Builders with a single entry -/

theorem single_entry_facts (t : QueryBuilder) (a f : String) (h : t = [(a, f)]) :
    t.len = 1 ∧ t.keys = [a] ∧ t.get? a = some f ∧
      ∀ order, IterOrder t order → Encode t order = f := by
  subst h
  refine ⟨rfl, rfl, by simp [get?], ?_⟩
  intro order ho
  exact Encode_single _ _ _ ho

theorem Call.run_empty {Time : Type} (rfc3339 : Time → String) (k : Call Time) :
    ∃ f, k.run rfc3339 QueryBuilder.empty = [(k.key, f)] := by
  cases k with
  | StartQuery a c v => exact ⟨_, Query_empty a c v ""⟩
  | Or a c v => exact ⟨_, Query_empty a c v LogicalOpOR⟩
  | And a c v => exact ⟨_, Query_empty a c v LogicalOpAND⟩
  | Query a c v op => exact ⟨_, Query_empty a c v op⟩
  | Between a s e op => exact ⟨_, Between_empty rfc3339 a s e op⟩
  | In a vs op => exact ⟨_, In_empty a vs op⟩
  | StartsWith v op => exact ⟨_, StartsWith_empty v op⟩

/-! ## C9 -/

/-- C9: on an empty builder, a first call that stores under attribute `a` (`Query`,
`Between`, `In`, or any other clause-adding call with key `a`) followed by a second call
`Query`, `Between` or `In` on the same `a` leaves exactly one entry, under key `a`,
holding the fragment rendered by the second call, and `Encode()` returns that fragment
only. -/
theorem C9_overwrite_same_attribute {Time : Type} (rfc3339 : Time → String) (a : String)
    (first : Call Time) (hk : first.key = a) (c2 : Char) (v2 op2 : String) (s2 e2 : Time)
    (vs2 : List String) :
    ((Query (first.run rfc3339 QueryBuilder.empty) a c2 v2 op2).len = 1 ∧
      (Query (first.run rfc3339 QueryBuilder.empty) a c2 v2 op2).keys = [a] ∧
      (Query (first.run rfc3339 QueryBuilder.empty) a c2 v2 op2).get? a
        = some (" " ++ op2 ++ " " ++ a ++ String.singleton c2 ++ "'" ++ v2 ++ "'") ∧
      ∀ order, IterOrder (Query (first.run rfc3339 QueryBuilder.empty) a c2 v2 op2) order →
        Encode (Query (first.run rfc3339 QueryBuilder.empty) a c2 v2 op2) order
          = " " ++ op2 ++ " " ++ a ++ String.singleton c2 ++ "'" ++ v2 ++ "'") ∧
    ((Between rfc3339 (first.run rfc3339 QueryBuilder.empty) a s2 e2 op2).len = 1 ∧
      (Between rfc3339 (first.run rfc3339 QueryBuilder.empty) a s2 e2 op2).keys = [a] ∧
      (Between rfc3339 (first.run rfc3339 QueryBuilder.empty) a s2 e2 op2).get? a
        = some (" " ++ op2 ++ " " ++ "(" ++ a ++ " BETWEEN '" ++ rfc3339 s2 ++ "' AND '"
            ++ rfc3339 e2 ++ "')") ∧
      ∀ order,
        IterOrder (Between rfc3339 (first.run rfc3339 QueryBuilder.empty) a s2 e2 op2) order →
        Encode (Between rfc3339 (first.run rfc3339 QueryBuilder.empty) a s2 e2 op2) order
          = " " ++ op2 ++ " " ++ "(" ++ a ++ " BETWEEN '" ++ rfc3339 s2 ++ "' AND '"
              ++ rfc3339 e2 ++ "')") ∧
    ((In (first.run rfc3339 QueryBuilder.empty) a vs2 op2).len = 1 ∧
      (In (first.run rfc3339 QueryBuilder.empty) a vs2 op2).keys = [a] ∧
      (In (first.run rfc3339 QueryBuilder.empty) a vs2 op2).get? a
        = some (" " ++ op2 ++ " " ++ a ++ " IN (" ++ quotedCommaList vs2 ++ ")") ∧
      ∀ order, IterOrder (In (first.run rfc3339 QueryBuilder.empty) a vs2 op2) order →
        Encode (In (first.run rfc3339 QueryBuilder.empty) a vs2 op2) order
          = " " ++ op2 ++ " " ++ a ++ " IN (" ++ quotedCommaList vs2 ++ ")") := by
  obtain ⟨f, hf⟩ := Call.run_empty rfc3339 first
  rw [hk] at hf
  rw [hf]
  have hpos : 0 < QueryBuilder.len [(a, f)] := by simp [len]
  refine ⟨?_, ?_, ?_⟩
  · apply single_entry_facts
    rw [Query_nonempty _ a c2 v2 op2 hpos, assign_single_same]
  · apply single_entry_facts
    rw [Between_nonempty rfc3339 _ a s2 e2 op2 hpos, assign_single_same]
  · apply single_entry_facts
    rw [In_nonempty _ a vs2 op2 hpos, assign_single_same]

/-- C9 with `In("WorkflowType", ["A"], "AND")` as the first call, for each kind of
second call on `WorkflowType`. -/
theorem C9_overwrite_same_attribute_witness :
    (Query ((Call.In "WorkflowType" ["A"] "AND").run (fun s : String => s) QueryBuilder.empty)
        "WorkflowType" '=' "B" "OR").len = 1 ∧
    Encode
        (Query ((Call.In "WorkflowType" ["A"] "AND").run (fun s : String => s)
          QueryBuilder.empty) "WorkflowType" '=' "B" "OR")
        ["WorkflowType"]
      = " OR WorkflowType='B'" ∧
    Encode
        (Between (fun s : String => s)
          ((Call.In "WorkflowType" ["A"] "AND").run (fun s : String => s) QueryBuilder.empty)
          "WorkflowType" "2024-12-16T20:47:35Z" "2024-12-16T20:52:35Z" "OR")
        ["WorkflowType"]
      = " OR (WorkflowType BETWEEN '2024-12-16T20:47:35Z' AND '2024-12-16T20:52:35Z')" ∧
    Encode
        (In ((Call.In "WorkflowType" ["A"] "AND").run (fun s : String => s) QueryBuilder.empty)
          "WorkflowType" ["B", "C"] "OR")
        ["WorkflowType"]
      = " OR WorkflowType IN ('B', 'C')" :=
  ⟨(C9_overwrite_same_attribute (fun s : String => s) "WorkflowType"
      (Call.In "WorkflowType" ["A"] "AND") rfl '=' "B" "OR" "2024-12-16T20:47:35Z"
      "2024-12-16T20:52:35Z" ["B", "C"]).1.1,
   (C9_overwrite_same_attribute (fun s : String => s) "WorkflowType"
      (Call.In "WorkflowType" ["A"] "AND") rfl '=' "B" "OR" "2024-12-16T20:47:35Z"
      "2024-12-16T20:52:35Z" ["B", "C"]).1.2.2.2 ["WorkflowType"] (by decide),
   (C9_overwrite_same_attribute (fun s : String => s) "WorkflowType"
      (Call.In "WorkflowType" ["A"] "AND") rfl '=' "B" "OR" "2024-12-16T20:47:35Z"
      "2024-12-16T20:52:35Z" ["B", "C"]).2.1.2.2.2 ["WorkflowType"] (by decide),
   (C9_overwrite_same_attribute (fun s : String => s) "WorkflowType"
      (Call.In "WorkflowType" ["A"] "AND") rfl '=' "B" "OR" "2024-12-16T20:47:35Z"
      "2024-12-16T20:52:35Z" ["B", "C"]).2.2.2.2.2 ["WorkflowType"] (by decide)⟩

/-! ## C10 -/

/-- C10: `StartsWith` stores under the key equal to its value.  On an empty builder,
`StartQuery(s,c,v)` followed by `StartsWith(s,op)` leaves exactly one entry, under key
`s`, and `Encode()` returns `" " ++ op ++ " STARTS_WITH '" ++ s ++ "'"`; two `StartsWith`
calls with the same value leave one entry, and two with different values leave two. -/
theorem C10_startsWith_key_collision (s : String) (c : Char) (v op : String)
    (v1 v2 op1 op2 : String) :
    ((StartsWith (StartQuery QueryBuilder.empty s c v) s op).len = 1 ∧
      (StartsWith (StartQuery QueryBuilder.empty s c v) s op).keys = [s] ∧
      ∀ order, IterOrder (StartsWith (StartQuery QueryBuilder.empty s c v) s op) order →
        Encode (StartsWith (StartQuery QueryBuilder.empty s c v) s op) order
          = " " ++ op ++ " STARTS_WITH '" ++ s ++ "'") ∧
    (StartsWith (StartsWith QueryBuilder.empty v1 op1) v1 op2).len = 1 ∧
    (v1 ≠ v2 → (StartsWith (StartsWith QueryBuilder.empty v1 op1) v2 op2).len = 2) := by
  refine ⟨?_, ?_, ?_⟩
  · have h : StartsWith (StartQuery QueryBuilder.empty s c v) s op
        = [(s, " " ++ op ++ " STARTS_WITH '" ++ s ++ "'")] := by
      unfold StartQuery
      rw [Query_empty, StartsWith_nonempty _ s op (by simp [len]), assign_single_same]
    have hs := single_entry_facts _ _ _ h
    exact ⟨hs.1, hs.2.1, hs.2.2.2⟩
  · rw [StartsWith_empty, StartsWith_nonempty _ v1 op2 (by simp [len]), assign_single_same]
    rfl
  · intro hne
    rw [StartsWith_empty, StartsWith_nonempty _ v2 op2 (by simp [len])]
    simp [assign, hne, len]

/-- C10 at `StartQuery("foo",'=',"x")` then `StartsWith("foo","AND")`, and at the
values `"foo"` and `"bar"`. -/
theorem C10_startsWith_key_collision_witness :
    Encode (StartsWith (StartQuery QueryBuilder.empty "foo" '=' "x") "foo" "AND") ["foo"]
      = " AND STARTS_WITH 'foo'" ∧
    (StartsWith (StartsWith QueryBuilder.empty "foo" "") "bar" "OR").len = 2 :=
  ⟨(C10_startsWith_key_collision "foo" '=' "x" "AND" "foo" "bar" "" "OR").1.2.2 ["foo"]
      (by decide),
   (C10_startsWith_key_collision "foo" '=' "x" "AND" "foo" "bar" "" "OR").2.2 (by decide)⟩

end TemporalQueryBuilder

namespace TemporalQueryBuilder

open QueryBuilder

/-! ## C11 -/

/-- C11: on the builder left by `StartQuery("WorkflowType",'=',"TestMe")` and
`And("ExecutionStatus",'=',"Running")`, a first `Encode()` can visit the two keys in call
order and a second `Encode()`, with no call in between, in the other order; both are
iteration orders of the same unchanged map, and the two calls then return the different
strings `WorkflowType='TestMe' AND ExecutionStatus='Running'` and
` AND ExecutionStatus='Running'WorkflowType='TestMe'`. -/
theorem C11_two_encodes_can_differ :
    (And (StartQuery QueryBuilder.empty "WorkflowType" '=' "TestMe")
        "ExecutionStatus" '=' "Running").len = 2 ∧
    IterOrder
        (And (StartQuery QueryBuilder.empty "WorkflowType" '=' "TestMe")
          "ExecutionStatus" '=' "Running")
        ["WorkflowType", "ExecutionStatus"] ∧
    IterOrder
        (And (StartQuery QueryBuilder.empty "WorkflowType" '=' "TestMe")
          "ExecutionStatus" '=' "Running")
        ["ExecutionStatus", "WorkflowType"] ∧
    Encode
        (And (StartQuery QueryBuilder.empty "WorkflowType" '=' "TestMe")
          "ExecutionStatus" '=' "Running")
        ["WorkflowType", "ExecutionStatus"]
      ≠ Encode
        (And (StartQuery QueryBuilder.empty "WorkflowType" '=' "TestMe")
          "ExecutionStatus" '=' "Running")
        ["ExecutionStatus", "WorkflowType"] := by
  refine ⟨by decide, by decide, by decide, by decide⟩

/-! ## C12 -/

/-- C12, refuted as stated: on the non-empty builder holding `WorkflowType='TestMe'`,
`StartQuery("RunId",'=',"r1")` stores under `RunId` the fragment `  RunId='r1'`, which
begins with two spaces, not `RunId='r1'`. -/
theorem C12_counterexample_nonempty_builder :
    (StartQuery [("WorkflowType", "WorkflowType='TestMe'")] "RunId" '=' "r1").get? "RunId"
      = some "  RunId='r1'" ∧
    (StartQuery [("WorkflowType", "WorkflowType='TestMe'")] "RunId" '=' "r1").get? "RunId"
      ≠ some ("RunId" ++ String.singleton '=' ++ "'" ++ "r1" ++ "'") := by
  refine ⟨by decide, by decide⟩

/-- C12, amended: `StartQuery(a,c,v)` stores under key `a` exactly
`a ++ [c] ++ "'" ++ v ++ "'"` when the builder held zero entries before the call, and
that fragment preceded by two spaces (the empty logical operator between its two
spaces) when the builder held at least one entry. -/
theorem C12_startQuery_stored_fragment (t : QueryBuilder) (a : String) (c : Char)
    (v : String) :
    (t.len = 0 →
        (StartQuery t a c v).get? a = some (a ++ String.singleton c ++ "'" ++ v ++ "'")) ∧
    (0 < t.len →
        (StartQuery t a c v).get? a
          = some ("  " ++ a ++ String.singleton c ++ "'" ++ v ++ "'")) := by
  constructor
  · intro h
    have ht : t = QueryBuilder.empty := by
      cases t with
      | nil => rfl
      | cons e rest => simp [len] at h
    subst ht
    unfold StartQuery
    rw [Query_empty]
    simp [get?]
  · intro h
    unfold StartQuery
    rw [Query_nonempty t a c v _ h, get?_assign, if_pos rfl]
    rfl

/-- C12 amended, on the empty builder and on a builder holding one clause. -/
theorem C12_startQuery_stored_fragment_witness :
    (StartQuery QueryBuilder.empty "RunId" '=' "r1").get? "RunId" = some "RunId='r1'" ∧
    (StartQuery [("WorkflowType", "WorkflowType='TestMe'")] "RunId" '=' "r1").get? "RunId"
      = some "  RunId='r1'" :=
  ⟨(C12_startQuery_stored_fragment QueryBuilder.empty "RunId" '=' "r1").1 (by decide),
   (C12_startQuery_stored_fragment [("WorkflowType", "WorkflowType='TestMe'")] "RunId" '='
      "r1").2 (by decide)⟩

/-! ## C17 -/

/-- C17: on an empty builder, `StartQuery(a,c1,v1)` followed by `And(a,c2,v2)` leaves a
builder with one entry, under key `a`, and `Encode()` returns exactly
`" AND " ++ a ++ [c2] ++ "'" ++ v2 ++ "'"`: the emptiness test of the second call sees
the entry of the first. -/
theorem C17_readd_only_clause (a : String) (c1 : Char) (v1 : String) (c2 : Char)
    (v2 : String) :
    (And (StartQuery QueryBuilder.empty a c1 v1) a c2 v2).len = 1 ∧
    (And (StartQuery QueryBuilder.empty a c1 v1) a c2 v2).keys = [a] ∧
    ∀ order, IterOrder (And (StartQuery QueryBuilder.empty a c1 v1) a c2 v2) order →
      Encode (And (StartQuery QueryBuilder.empty a c1 v1) a c2 v2) order
        = " AND " ++ a ++ String.singleton c2 ++ "'" ++ v2 ++ "'" := by
  have h : And (StartQuery QueryBuilder.empty a c1 v1) a c2 v2
      = [(a, " AND " ++ a ++ String.singleton c2 ++ "'" ++ v2 ++ "'")] := by
    unfold StartQuery
    rw [Query_empty, And_nonempty _ a c2 v2 (by simp [len]), assign_single_same]
  have hs := single_entry_facts _ _ _ h
  exact ⟨hs.1, hs.2.1, hs.2.2.2⟩

/-- C17 at `StartQuery("WorkflowType",'=',"A")` then `And("WorkflowType",'=',"B")`. -/
theorem C17_readd_only_clause_witness :
    Encode (And (StartQuery QueryBuilder.empty "WorkflowType" '=' "A") "WorkflowType" '=' "B")
        ["WorkflowType"]
      = " AND WorkflowType='B'" :=
  (C17_readd_only_clause "WorkflowType" '=' "A" '=' "B").2.2 ["WorkflowType"] (by decide)

/-! ## C18 -/

/-- C18: values are written between the quotes as they are.  The one-clause builder
made by `StartQuery("a",'=',"x' OR b='y")` and the two-clause builder made by
`StartQuery("a",'=',"x")` then `Or("b",'=',"y")`, its keys visited in call order, both
encode to `a='x' OR b='y'`, although the builders differ; and for every builder, the
fragment `Query` stores ends with the quote, the value `v` unchanged, and the quote,
whatever characters `v` holds. -/
theorem C18_values_not_escaped :
    ((StartQuery QueryBuilder.empty "a" '=' "x' OR b='y").len = 1 ∧
      (Or (StartQuery QueryBuilder.empty "a" '=' "x") "b" '=' "y").len = 2 ∧
      IterOrder (StartQuery QueryBuilder.empty "a" '=' "x' OR b='y") ["a"] ∧
      IterOrder (Or (StartQuery QueryBuilder.empty "a" '=' "x") "b" '=' "y") ["a", "b"] ∧
      Encode (StartQuery QueryBuilder.empty "a" '=' "x' OR b='y") ["a"] = "a='x' OR b='y'" ∧
      Encode (Or (StartQuery QueryBuilder.empty "a" '=' "x") "b" '=' "y") ["a", "b"]
        = "a='x' OR b='y'") ∧
    (∀ (t : QueryBuilder) (a : String) (c : Char) (v op : String),
      (Query t a c v op).get? a
        = some ((if 0 < t.len then " " ++ op ++ " " else "") ++ a ++ String.singleton c
            ++ "'" ++ v ++ "'")) := by
  refine ⟨⟨by decide, by decide, by decide, by decide, by decide, by decide⟩, ?_⟩
  intro t a c v op
  by_cases h : 0 < t.len
  · rw [Query_nonempty t a c v op h, get?_assign, if_pos rfl, if_pos h]
  · have ht : t = QueryBuilder.empty := by
      cases t with
      | nil => rfl
      | cons e rest => simp [len] at h
    subst ht
    rw [Query_empty, if_neg h]
    simp [get?]

end TemporalQueryBuilder

namespace TemporalQueryBuilder

open QueryBuilder

/-! ## Every call is one map assignment -/

theorem Call.run_eq_assign {Time : Type} (rfc3339 : Time → String) (t : QueryBuilder)
    (k : Call Time) : ∃ f, k.run rfc3339 t = t.assign k.key f := by
  cases k <;> exact ⟨_, rfl⟩

theorem Call.run_nonempty {Time : Type} (rfc3339 : Time → String) (t : QueryBuilder)
    (k : Call Time) (h : 0 < t.len) :
    ∃ body, k.run rfc3339 t = t.assign k.key (" " ++ k.logicalOp ++ " " ++ body) := by
  cases k with
  | StartQuery a c v =>
    refine ⟨a ++ String.singleton c ++ "'" ++ v ++ "'", ?_⟩
    show TemporalQueryBuilder.Query t a c v "" = _
    rw [Query_nonempty t a c v "" h]
    simp only [Call.key, Call.logicalOp, String.append_assoc]
  | Or a c v =>
    refine ⟨a ++ String.singleton c ++ "'" ++ v ++ "'", ?_⟩
    show TemporalQueryBuilder.Query t a c v LogicalOpOR = _
    rw [Query_nonempty t a c v _ h]
    simp only [Call.key, Call.logicalOp, String.append_assoc]
  | And a c v =>
    refine ⟨a ++ String.singleton c ++ "'" ++ v ++ "'", ?_⟩
    show TemporalQueryBuilder.Query t a c v LogicalOpAND = _
    rw [Query_nonempty t a c v _ h]
    simp only [Call.key, Call.logicalOp, String.append_assoc]
  | Query a c v op =>
    refine ⟨a ++ String.singleton c ++ "'" ++ v ++ "'", ?_⟩
    show TemporalQueryBuilder.Query t a c v op = _
    rw [Query_nonempty t a c v op h]
    simp only [Call.key, Call.logicalOp, String.append_assoc]
  | Between a s e op =>
    refine ⟨"(" ++ a ++ " BETWEEN '" ++ rfc3339 s ++ "' AND '" ++ rfc3339 e ++ "')", ?_⟩
    show TemporalQueryBuilder.Between rfc3339 t a s e op = _
    rw [Between_nonempty rfc3339 t a s e op h]
    simp only [Call.key, Call.logicalOp, String.append_assoc]
  | In a vs op =>
    refine ⟨a ++ " IN (" ++ quotedCommaList vs ++ ")", ?_⟩
    show TemporalQueryBuilder.In t a vs op = _
    rw [In_nonempty t a vs op h]
    simp only [Call.key, Call.logicalOp, String.append_assoc]
  | StartsWith v op =>
    refine ⟨"STARTS_WITH '" ++ v ++ "'", ?_⟩
    show TemporalQueryBuilder.StartsWith t v op = _
    rw [StartsWith_nonempty t v op h]
    simp only [Call.key, Call.logicalOp]
    congr 1
    apply String.ext
    simp

theorem len_assign_new (t : QueryBuilder) (k v : String) (h : k ∉ t.keys) :
    (t.assign k v).len = t.len + 1 := by
  rw [len_eq_keys_length, keys_assign_new t k v h, len_eq_keys_length]
  simp

theorem len_assign_old (t : QueryBuilder) (k v : String) (h : k ∈ t.keys) :
    (t.assign k v).len = t.len := by
  rw [len_eq_keys_length, keys_assign_old t k v h, len_eq_keys_length]

theorem mem_keys_assign (t : QueryBuilder) (k v k' : String) :
    k' ∈ (t.assign k v).keys ↔ k' = k ∨ k' ∈ t.keys := by
  by_cases h : k ∈ t.keys
  · rw [keys_assign_old t k v h]
    constructor
    · intro hk
      exact Or.inr hk
    · intro hk
      rcases hk with hk | hk
      · exact hk ▸ h
      · exact hk
  · rw [keys_assign_new t k v h]
    simp [or_comm]

theorem WF_assign (t : QueryBuilder) (k v : String) (h : t.WF) : (t.assign k v).WF := by
  unfold WF at h ⊢
  by_cases hk : k ∈ t.keys
  · rw [keys_assign_old t k v hk]
    exact h
  · rw [keys_assign_new t k v hk]
    exact List.Nodup.append h (List.nodup_singleton k) (by simpa using hk)

theorem WF_run {Time : Type} (rfc3339 : Time → String) (t : QueryBuilder) (k : Call Time)
    (h : t.WF) : (k.run rfc3339 t).WF := by
  obtain ⟨f, hf⟩ := Call.run_eq_assign rfc3339 t k
  rw [hf]
  exact WF_assign t _ _ h

theorem Call.runValue_alloc {Time : Type} (rfc3339 : Time → String) (m : QueryBuilder)
    (k : Call Time) : k.runValue rfc3339 (Value.alloc m) = .ok (Value.alloc (k.run rfc3339 m)) := by
  cases k <;> rfl

theorem Call.runValue_nil {Time : Type} (rfc3339 : Time → String) (k : Call Time) :
    k.runValue rfc3339 Value.nil = .error GoPanic.assignmentToEntryInNilMap := by
  cases k <;> rfl

end TemporalQueryBuilder

namespace TemporalQueryBuilder

open QueryBuilder

/-! ## C13 -/

/-- C13, refuted as stated: on Go's zero-value nil map (`var q QueryBuilder`) the call
`StartQuery("WorkflowType",'=',"TestMe")` does not return normally: the assignment
`t[searchAttr] = ...` panics with `assignment to entry in nil map`. -/
theorem C13_counterexample_nil_map :
    Value.StartQuery Value.nil "WorkflowType" '=' "TestMe"
      = Except.error GoPanic.assignmentToEntryInNilMap := rfl

/-- C13, amended: on every allocated builder value (the empty map literal or a
populated map) every clause-adding call returns normally, the new value holding what
the call stores, with an entry under the key of the call; on the nil map every
clause-adding call panics at the map assignment; `Encode` returns a string for every
builder value, on an allocated map the encoding of its contents and on the nil map,
which has no key to visit, the empty string. -/
theorem C13_total_on_allocated_maps {Time : Type} (rfc3339 : Time → String)
    (m : QueryBuilder) (k : Call Time) (order : List String) :
    k.runValue rfc3339 (Value.alloc m) = Except.ok (Value.alloc (k.run rfc3339 m)) ∧
    (∃ f, (k.run rfc3339 m).get? k.key = some f) ∧
    k.runValue rfc3339 Value.nil = Except.error GoPanic.assignmentToEntryInNilMap ∧
    Value.Encode (Value.alloc m) order = Encode m order ∧
    Value.keys Value.nil = [] ∧
    Value.Encode Value.nil [] = "" := by
  refine ⟨Call.runValue_alloc rfc3339 m k, ?_, Call.runValue_nil rfc3339 k, rfl, rfl, rfl⟩
  obtain ⟨f, hf⟩ := Call.run_eq_assign rfc3339 m k
  refine ⟨f, ?_⟩
  rw [hf, get?_assign, if_pos rfl]

/-! ## C16 -/

/-- C16: for every builder state and every clause-adding call with key `a` (the
attribute, or the value for `StartsWith`), every key other than `a` has after the call
the entry it had before (none if it had none), every key present after the call is `a`
or was present before, `a` is present after the call, the number of entries grows by
one when `a` was not a key and stays the same when it was, and a non-empty builder
stays non-empty. -/
theorem C16_frame_of_a_call {Time : Type} (rfc3339 : Time → String) (t : QueryBuilder)
    (k : Call Time) :
    (∀ k', k' ≠ k.key → (k.run rfc3339 t).get? k' = t.get? k') ∧
    (∀ k', k' ∈ (k.run rfc3339 t).keys → k' = k.key ∨ k' ∈ t.keys) ∧
    k.key ∈ (k.run rfc3339 t).keys ∧
    (k.key ∉ t.keys → (k.run rfc3339 t).len = t.len + 1) ∧
    (k.key ∈ t.keys → (k.run rfc3339 t).len = t.len) ∧
    (0 < t.len → 0 < (k.run rfc3339 t).len) := by
  obtain ⟨f, hf⟩ := Call.run_eq_assign rfc3339 t k
  rw [hf]
  refine ⟨?_, ?_, ?_, ?_, ?_, ?_⟩
  · intro k' hk'
    rw [get?_assign, if_neg (Ne.symm hk')]
  · intro k' hk'
    exact (mem_keys_assign t _ f k').mp hk'
  · exact (mem_keys_assign t _ f _).mpr (Or.inl rfl)
  · intro h
    exact len_assign_new t _ f h
  · intro h
    exact len_assign_old t _ f h
  · intro h
    by_cases hk : k.key ∈ t.keys
    · rw [len_assign_old t _ f hk]
      exact h
    · rw [len_assign_new t _ f hk]
      exact Nat.succ_pos _

/-- C16 on the builder holding `WorkflowType='TestMe'`: `And` on the new attribute
`ExecutionStatus` keeps the entry of `WorkflowType` and makes two entries, `In` on
`WorkflowType` keeps one entry. -/
theorem C16_frame_of_a_call_witness :
    ((Call.And "ExecutionStatus" '=' "Running" : Call String).run (fun s => s)
        [("WorkflowType", "WorkflowType='TestMe'")]).get? "WorkflowType"
      = QueryBuilder.get? [("WorkflowType", "WorkflowType='TestMe'")] "WorkflowType" ∧
    ((Call.And "ExecutionStatus" '=' "Running" : Call String).run (fun s => s)
        [("WorkflowType", "WorkflowType='TestMe'")]).len
      = QueryBuilder.len [("WorkflowType", "WorkflowType='TestMe'")] + 1 ∧
    ((Call.In "WorkflowType" ["A"] "OR" : Call String).run (fun s => s)
        [("WorkflowType", "WorkflowType='TestMe'")]).len
      = QueryBuilder.len [("WorkflowType", "WorkflowType='TestMe'")] ∧
    0 < ((Call.In "WorkflowType" ["A"] "OR" : Call String).run (fun s => s)
        [("WorkflowType", "WorkflowType='TestMe'")]).len :=
  ⟨(C16_frame_of_a_call (fun s : String => s) [("WorkflowType", "WorkflowType='TestMe'")]
      (Call.And "ExecutionStatus" '=' "Running")).1 "WorkflowType" (by decide),
   (C16_frame_of_a_call (fun s : String => s) [("WorkflowType", "WorkflowType='TestMe'")]
      (Call.And "ExecutionStatus" '=' "Running")).2.2.2.1 (by decide),
   (C16_frame_of_a_call (fun s : String => s) [("WorkflowType", "WorkflowType='TestMe'")]
      (Call.In "WorkflowType" ["A"] "OR")).2.2.2.2.1 (by decide),
   (C16_frame_of_a_call (fun s : String => s) [("WorkflowType", "WorkflowType='TestMe'")]
      (Call.In "WorkflowType" ["A"] "OR")).2.2.2.2.2 (by decide)⟩

end TemporalQueryBuilder

namespace TemporalQueryBuilder

open QueryBuilder

/-! ## The encoding as a concatenation of the stored fragments -/

theorem join_cons (x : String) (xs : List String) :
    String.join (x :: xs) = x ++ String.join xs := by
  have h := foldl_append_acc xs x ""
  simpa [String.join] using h

theorem length_join (l : List String) :
    (String.join l).length = (l.map String.length).sum := by
  induction l with
  | nil => rfl
  | cons x xs ih => rw [join_cons, String.length_append, ih, List.map_cons, List.sum_cons]

theorem index_cons_of_ne (k0 v0 : String) (rest : QueryBuilder) (k : String) (h : k0 ≠ k) :
    QueryBuilder.index ((k0, v0) :: rest) k = QueryBuilder.index rest k := by
  simp [index, get?, h]

theorem entries_of_keys (t : QueryBuilder) (h : t.WF) :
    t.keys.map (fun k => (k, t.index k)) = t := by
  induction t with
  | nil => rfl
  | cons e rest ih =>
    obtain ⟨k0, v0⟩ := e
    have hnd : (k0 :: QueryBuilder.keys rest).Nodup := h
    have hk0 : k0 ∉ QueryBuilder.keys rest := (List.nodup_cons.mp hnd).1
    have hrest : QueryBuilder.WF rest := (List.nodup_cons.mp hnd).2
    have hhead : QueryBuilder.index ((k0, v0) :: rest) k0 = v0 := by simp [index, get?]
    have htail : (QueryBuilder.keys rest).map
          (fun k => (k, QueryBuilder.index ((k0, v0) :: rest) k))
        = (QueryBuilder.keys rest).map (fun k => (k, QueryBuilder.index rest k)) := by
      apply List.map_congr_left
      intro k hk
      have hne : k0 ≠ k := fun hkk => hk0 (hkk ▸ hk)
      rw [index_cons_of_ne k0 v0 rest k hne]
    show (k0 :: QueryBuilder.keys rest).map
        (fun k => (k, QueryBuilder.index ((k0, v0) :: rest) k)) = (k0, v0) :: rest
    rw [List.map_cons, hhead, htail, ih hrest]

/-! ## C14 -/

/-- C14: for every builder state, `Encode()` returns the concatenation, with nothing
in between or added, of the fragments of the entries taken in some order, each entry
once (the entries arranged as some permutation `es`); the length of the output is the
sum of the lengths of the stored fragments; and for the empty builder the output is
the empty string. -/
theorem C14_encode_concatenates_fragments (t : QueryBuilder) (order : List String)
    (hwf : t.WF) (ho : IterOrder t order) :
    (∃ es : List (String × String), es.Perm t ∧
        Encode t order = String.join (es.map Prod.snd)) ∧
    (Encode t order).length = (t.map (fun e => e.2.length)).sum ∧
    (t = QueryBuilder.empty → Encode t order = "") := by
  have hperm : (order.map (fun k => (k, t.index k))).Perm t := by
    have h1 : (order.map (fun k => (k, t.index k))).Perm
        (t.keys.map (fun k => (k, t.index k))) := List.Perm.map _ ho
    rw [entries_of_keys t hwf] at h1
    exact h1
  have henc : Encode t order
      = String.join ((order.map (fun k => (k, t.index k))).map Prod.snd) := by
    rw [Encode_eq_join, List.map_map]
    rfl
  refine ⟨⟨_, hperm, henc⟩, ?_, ?_⟩
  · rw [henc, length_join, List.map_map]
    have h2 : ((order.map (fun k => (k, t.index k))).map (String.length ∘ Prod.snd)).Perm
        (t.map (String.length ∘ Prod.snd)) := List.Perm.map _ hperm
    have h3 := List.Perm.sum_eq h2
    exact h3
  · intro hempty
    subst hempty
    have hnil : order = [] := List.Perm.eq_nil ho
    subst hnil
    rfl

/-- C14 on the builder left by `StartQuery("WorkflowType",'=',"TestMe")` and
`And("ExecutionStatus",'=',"Running")`, its keys visited with `ExecutionStatus` first:
the output has the 21 + 30 characters of the two fragments. -/
theorem C14_encode_concatenates_fragments_witness :
    (Encode
        (And (StartQuery QueryBuilder.empty "WorkflowType" '=' "TestMe")
          "ExecutionStatus" '=' "Running")
        ["ExecutionStatus", "WorkflowType"]).length
      = 21 + 30 :=
  (C14_encode_concatenates_fragments
    (And (StartQuery QueryBuilder.empty "WorkflowType" '=' "TestMe")
      "ExecutionStatus" '=' "Running")
    ["ExecutionStatus", "WorkflowType"] (by decide) (by decide)).2.1

/-! ## C15 -/

theorem beginsWithSpace_append (s : String) : beginsWithSpace (" " ++ s) = true := by
  simp [beginsWithSpace, String.data_append]

theorem countP_assign_le (t : QueryBuilder) (k v : String) (hv : beginsWithSpace v = true) :
    (t.assign k v).countP (fun e => !beginsWithSpace e.2)
      ≤ t.countP (fun e => !beginsWithSpace e.2) := by
  induction t with
  | nil => simp [assign, hv]
  | cons e rest ih =>
    obtain ⟨k0, v0⟩ := e
    by_cases h0 : k0 = k
    · simp only [assign, h0, if_true, List.countP_cons, hv]
      simp
    · simp only [assign, h0, if_false, List.countP_cons]
      exact Nat.add_le_add_right ih _

theorem countP_run_le_one {Time : Type} (rfc3339 : Time → String) (t : QueryBuilder)
    (k : Call Time) (h : t.countP (fun e => !beginsWithSpace e.2) ≤ 1) :
    (k.run rfc3339 t).countP (fun e => !beginsWithSpace e.2) ≤ 1 := by
  by_cases hpos : 0 < t.len
  · obtain ⟨body, hb⟩ := Call.run_nonempty rfc3339 t k hpos
    rw [hb]
    have hsp : beginsWithSpace (" " ++ k.logicalOp ++ " " ++ body) = true := by
      rw [String.append_assoc, String.append_assoc]
      exact beginsWithSpace_append _
    exact Nat.le_trans (countP_assign_le t _ _ hsp) h
  · have ht : t = QueryBuilder.empty := by
      cases t with
      | nil => rfl
      | cons e rest => simp [len] at hpos
    subst ht
    obtain ⟨f, hf⟩ := Call.run_empty rfc3339 k
    rw [hf]
    exact List.countP_le_length _

theorem countP_runCalls_le_one {Time : Type} (rfc3339 : Time → String)
    (calls : List (Call Time)) (t : QueryBuilder)
    (h : t.countP (fun e => !beginsWithSpace e.2) ≤ 1) :
    (runCalls rfc3339 t calls).countP (fun e => !beginsWithSpace e.2) ≤ 1 := by
  induction calls generalizing t with
  | nil => exact h
  | cons k rest ih => exact ih _ (countP_run_le_one rfc3339 t k h)

/-- C15: in every builder state reached from the empty builder by a sequence of
clause-adding calls, at most one stored fragment does not begin with a space; and the
fragment stored by any call made on such a state while it is non-empty is
`" " ++ op ++ " "` followed by the clause, `op` being the logical operator of the call. -/
theorem C15_reachable_fragments {Time : Type} (rfc3339 : Time → String)
    (calls : List (Call Time)) :
    (runCalls rfc3339 QueryBuilder.empty calls).countP (fun e => !beginsWithSpace e.2) ≤ 1 ∧
    ∀ k : Call Time, 0 < (runCalls rfc3339 QueryBuilder.empty calls).len →
      ∃ body, (k.run rfc3339 (runCalls rfc3339 QueryBuilder.empty calls)).get? k.key
        = some (" " ++ k.logicalOp ++ " " ++ body) := by
  constructor
  · exact countP_runCalls_le_one rfc3339 calls QueryBuilder.empty (by simp [QueryBuilder.empty])
  · intro k hpos
    obtain ⟨body, hb⟩ := Call.run_nonempty rfc3339 _ k hpos
    refine ⟨body, ?_⟩
    rw [hb, get?_assign, if_pos rfl]

/-- C15 after `StartQuery("WorkflowType",'=',"TestMe")` and
`StartsWith("foo","OR")`: one fragment does not begin with a space, and
`And("RunId",'=',"r1")` then stores a fragment beginning with ` AND `. -/
theorem C15_reachable_fragments_witness :
    (runCalls (fun s : String => s) QueryBuilder.empty
        [Call.StartQuery "WorkflowType" '=' "TestMe", Call.StartsWith "foo" "OR"]).countP
        (fun e => !beginsWithSpace e.2) = 1 ∧
    ∃ body, ((Call.And "RunId" '=' "r1" : Call String).run (fun s : String => s)
        (runCalls (fun s : String => s) QueryBuilder.empty
          [Call.StartQuery "WorkflowType" '=' "TestMe", Call.StartsWith "foo" "OR"])).get?
          (Call.And "RunId" '=' "r1" : Call String).key
      = some (" " ++ (Call.And "RunId" '=' "r1" : Call String).logicalOp ++ " " ++ body) :=
  ⟨by decide,
   (C15_reachable_fragments (fun s : String => s)
      [Call.StartQuery "WorkflowType" '=' "TestMe", Call.StartsWith "foo" "OR"]).2
      (Call.And "RunId" '=' "r1") (by decide)⟩

end TemporalQueryBuilder
